import Mathlib

/-!
Shallow embedding of the `radar-streamlit` reporting dashboard (`src/app.py`).

The program's computational core is:
  * `interval_month` — converts a month anchor timestamp into the inclusive
    `[first day, last day]` window of its month, via
    `month.replace(day=1)` and `month + relativedelta(months=1) - Timedelta(days=1)`;
  * two SQL queries (`SQL_RESUMO`, `SQL_DETALHES`) over the relational store;
  * a four-way severity classifier `classifica` and a sort by
    `(Severidade, PiorNota)` with nulls last;
  * the drill-down default selection (`cid_default`, the `st.selectbox` index).

Dates are modelled as year/month/day triples with proleptic-Gregorian month
lengths; SQL floats are modelled as rationals (ℚ); nullable SQL values as
`Option ℚ`.
-/

/-- A calendar date (year, month, day). -/
structure Date where
  y : Nat
  m : Nat
  d : Nat
deriving DecidableEq, Repr

/-- Gregorian leap-year rule. -/
def isLeap (y : Nat) : Bool :=
  y % 4 == 0 && (y % 100 != 0 || y % 400 == 0)

/-- Number of days in month `m` of year `y`. -/
def daysInMonth (y m : Nat) : Nat :=
  if m == 2 then (if isLeap y then 29 else 28)
  else if m == 4 || m == 6 || m == 9 || m == 11 then 30
  else 31

/-- Validity of a calendar date. -/
def Date.valid (dt : Date) : Prop :=
  1 ≤ dt.m ∧ dt.m ≤ 12 ∧ 1 ≤ dt.d ∧ dt.d ≤ daysInMonth dt.y dt.m

instance (dt : Date) : Decidable dt.valid := by
  unfold Date.valid; infer_instance

/-- Chronological order on dates (lexicographic on year, month, day);
this is the order the SQL `BETWEEN` on `Periodo` uses. -/
def dateLe (a b : Date) : Prop :=
  a.y < b.y ∨ (a.y = b.y ∧ (a.m < b.m ∨ (a.m = b.m ∧ a.d ≤ b.d)))

instance (a b : Date) : Decidable (dateLe a b) := by
  unfold dateLe; infer_instance

/-- `month + relativedelta(months=1)`: advance to the next month, clamping
the day-of-month to the target month's length (dateutil semantics). -/
def addOneMonthClamped (dt : Date) : Date :=
  if dt.m = 12 then ⟨dt.y + 1, 1, min dt.d (daysInMonth (dt.y + 1) 1)⟩
  else ⟨dt.y, dt.m + 1, min dt.d (daysInMonth dt.y (dt.m + 1))⟩

/-- `ts - pd.Timedelta(days=1)`: the previous calendar day. -/
def predDay (dt : Date) : Date :=
  if 2 ≤ dt.d then ⟨dt.y, dt.m, dt.d - 1⟩
  else if dt.m = 1 then ⟨dt.y - 1, 12, 31⟩
  else ⟨dt.y, dt.m - 1, daysInMonth dt.y (dt.m - 1)⟩

/-- `interval_month(month)` from `src/app.py`:
`ini = month.replace(day=1)`,
`fim = month + relativedelta(months=1) - Timedelta(days=1)`. -/
def interval_month (month : Date) : Date × Date :=
  (⟨month.y, month.m, 1⟩, predDay (addOneMonthClamped month))

/-- `classifica(row)` from `fetch_resumo` in `src/app.py`, as a function of
the threshold `limiar` and the row's nullable `PiorNota`. -/
def classifica (limiar : ℚ) (piorNota : Option ℚ) : Nat × String :=
  match piorNota with
  | none => (3, "⏸️ Sem avaliação")
  | some v =>
    if v < limiar - 0.5 then (0, "🔥 Crítico")
    else if v < limiar then (1, "⚠️ Alerta")
    else (2, "OK")

/-! ### The relational store (schema consumed by the two SQL queries) -/

/-- A row of `Contratos`. -/
structure Contrato where
  id : Nat
  empresaId : Nat
  objeto : String
  isAtivo : Bool
deriving DecidableEq, Repr

/-- A row of `Empresas`. -/
structure Empresa where
  id : Nat
  nome : String
deriving DecidableEq, Repr

/-- A row of `ProjetoEmpresaColaboradores` (active contract–collaborator assignment). -/
structure Pec where
  contratoId : Nat
  colaboradorId : Nat
  ativo : Bool
deriving DecidableEq, Repr

/-- A row of `Colaboradores`. -/
structure Colaborador where
  id : Nat
  nomeCompleto : String
deriving DecidableEq, Repr

/-- A row of `AvaliacaoColaboradores`. -/
structure Avaliacao where
  colaboradorId : Nat
  contratoId : Nat
  periodo : Date
  tecnico : Int
  comunicacao : Int
  comprometimento : Int
  descricao : String
deriving DecidableEq, Repr

/-- The relational store state. -/
structure Store where
  contratos : List Contrato
  empresas : List Empresa
  pecs : List Pec
  colaboradores : List Colaborador
  avaliacoes : List Avaliacao
deriving DecidableEq, Repr

/-- The derived score of one evaluation:
`(CAST(Tecnico AS FLOAT)+CAST(Comunicacao AS FLOAT)+CAST(Comprometimento AS FLOAT))/3.0`. -/
def notaAvaliacao (a : Avaliacao) : ℚ :=
  ((a.tecnico : ℚ) + (a.comunicacao : ℚ) + (a.comprometimento : ℚ)) / 3

/-- The evaluations whose `Periodo` lies `BETWEEN @ini AND @fim` (inclusive). -/
def avalsInWindow (s : Store) (ini fim : Date) : List Avaliacao :=
  s.avaliacoes.filter (fun a => decide (dateLe ini a.periodo) && decide (dateLe a.periodo fim))

/-- Arithmetic mean of a list of rationals (SQL `AVG` over a non-empty group). -/
def media (l : List ℚ) : ℚ := l.sum / l.length

/-- The `notas` CTE of `SQL_RESUMO`: per collaborator (grouped only by
`ColaboradorId`, regardless of the evaluation's contract), the average derived
score over the window. -/
def notas (s : Store) (ini fim : Date) : List (Nat × ℚ) :=
  let evs := avalsInWindow s ini fim
  ((evs.map (fun a => a.colaboradorId)).dedup).map
    (fun i => (i, media ((evs.filter (fun a => a.colaboradorId == i)).map notaAvaliacao)))

/-- The `FROM ... JOIN ... JOIN` rows of `SQL_RESUMO` before grouping:
active contracts joined to their company and their active assignments. -/
def resumoJoin (s : Store) : List (Contrato × Empresa × Pec) :=
  (s.contratos.filter (fun c => c.isAtivo)).flatMap (fun c =>
    (s.empresas.filter (fun e => e.id == c.empresaId)).flatMap (fun e =>
      (s.pecs.filter (fun p => p.contratoId == c.id && p.ativo)).map (fun p => (c, e, p))))

/-- A `GROUP BY c.Id, e.Nome, c.Objeto` key. -/
structure ResumoKey where
  contratoId : Nat
  cliente : String
  projeto : String
deriving DecidableEq, Repr

/-- The grouping key of a joined row. -/
def rkey (t : Contrato × Empresa × Pec) : ResumoKey :=
  ⟨t.1.id, t.2.1.nome, t.1.objeto⟩

/-- The distinct grouping keys of the summary query's joined rows. -/
def resumoKeys (s : Store) : List ResumoKey :=
  ((resumoJoin s).map rkey).dedup

/-- The joined rows belonging to one group. -/
def groupRows (s : Store) (k : ResumoKey) : List (Contrato × Empresa × Pec) :=
  (resumoJoin s).filter (fun t => rkey t == k)

/-- SQL `MIN` over a group, ignoring no values (`none` on an empty group). -/
def listMin : List ℚ → Option ℚ
  | [] => none
  | x :: xs => some (xs.foldl min x)

/-- A result row of `SQL_RESUMO`. -/
structure ResumoRow where
  contratoId : Nat
  cliente : String
  projeto : String
  colaboradores : Nat
  piorNota : Option ℚ
  notaMedia : Option ℚ
  colabsRuins : Nat
deriving DecidableEq, Repr

/-- The aggregates of one `SQL_RESUMO` group: `COUNT(DISTINCT pec.ColaboradorId)`,
`MIN(n.NotaMedia)`, `AVG(n.NotaMedia)` (both skipping the NULLs produced by the
`LEFT JOIN notas`), and `SUM(CASE WHEN n.NotaMedia IS NOT NULL AND n.NotaMedia
< :limiar THEN 1 ELSE 0 END)`. -/
def resumoRow (s : Store) (ini fim : Date) (limiar : ℚ) (k : ResumoKey) : ResumoRow :=
  let g := groupRows s k
  let ns := notas s ini fim
  let vs := g.filterMap (fun t => ns.lookup t.2.2.colaboradorId)
  { contratoId := k.contratoId
    cliente := k.cliente
    projeto := k.projeto
    colaboradores := ((g.map (fun t => t.2.2.colaboradorId)).dedup).length
    piorNota := listMin vs
    notaMedia := if vs.isEmpty then none else some (media vs)
    colabsRuins := (vs.filter (fun v => decide (v < limiar))).length }

/-- The full (unsorted, unclassified) result set of `SQL_RESUMO`. -/
def fetchResumoRows (s : Store) (ini fim : Date) (limiar : ℚ) : List ResumoRow :=
  (resumoKeys s).map (resumoRow s ini fim limiar)

/-! ### `SQL_DETALHES` -/

/-- The `FROM pec JOIN AvaliacaoColaboradores ac JOIN Colaboradores col` rows of
`SQL_DETALHES`, with the join conditions `ac.ColaboradorId = pec.ColaboradorId AND
ac.Periodo BETWEEN :d_ini AND :d_fim` and `col.Id = ac.ColaboradorId`. -/
def detalhesJoin (s : Store) (ini fim : Date) : List (Pec × Avaliacao × Colaborador) :=
  s.pecs.flatMap (fun pec =>
    (s.avaliacoes.filter (fun ac =>
        ac.colaboradorId == pec.colaboradorId
          && decide (dateLe ini ac.periodo) && decide (dateLe ac.periodo fim))).flatMap (fun ac =>
      (s.colaboradores.filter (fun col => col.id == ac.colaboradorId)).map
        (fun col => (pec, ac, col))))

/-- The joined rows that survive the `WHERE pec.ContratoId = :cid AND
ac.ContratoId = :cid AND pec.Ativo = 1` clause of `SQL_DETALHES`. -/
def detalhesSelected (s : Store) (cid : Nat) (ini fim : Date) :
    List (Pec × Avaliacao × Colaborador) :=
  (detalhesJoin s ini fim).filter
    (fun t => t.1.contratoId == cid && t.2.1.contratoId == cid && t.1.ativo)

/-- A result row of `SQL_DETALHES`. -/
structure DetalheRow where
  nomeCompleto : String
  periodo : Date
  nota : ℚ
  tecnico : Int
  comunicacao : Int
  comprometimento : Int
  descricao : String
deriving DecidableEq, Repr

/-- The `SELECT` projection of `SQL_DETALHES`. -/
def detalheProj (t : Pec × Avaliacao × Colaborador) : DetalheRow :=
  { nomeCompleto := t.2.2.nomeCompleto
    periodo := t.2.1.periodo
    nota := notaAvaliacao t.2.1
    tecnico := t.2.1.tecnico
    comunicacao := t.2.1.comunicacao
    comprometimento := t.2.1.comprometimento
    descricao := t.2.1.descricao }

/-- The `ORDER BY col.NomeCompleto, ac.Periodo DESC` key order. -/
def detalheLe (a b : DetalheRow) : Prop :=
  a.nomeCompleto < b.nomeCompleto
    ∨ (a.nomeCompleto = b.nomeCompleto ∧ dateLe b.periodo a.periodo)

instance (a b : DetalheRow) : Decidable (detalheLe a b) := by
  unfold detalheLe; infer_instance

/-- `fetch_detalhes(cid, month)` from `src/app.py` (with the window already
derived): runs `SQL_DETALHES` and returns its ordered rows. -/
def fetch_detalhes (s : Store) (cid : Nat) (ini fim : Date) : List DetalheRow :=
  List.insertionSort detalheLe ((detalhesSelected s cid ini fim).map detalheProj)

/-! ### Classification and report assembly (`fetch_resumo`) -/

/-- A classified report row (a `ResumoRow` plus `Severidade` and `Status`). -/
structure ReportRow where
  contratoId : Nat
  cliente : String
  projeto : String
  colaboradores : Nat
  piorNota : Option ℚ
  notaMedia : Option ℚ
  colabsRuins : Nat
  severidade : Nat
  status : String
deriving DecidableEq, Repr

/-- `df[["Severidade", "Status"]] = df.apply(classifica, axis=1)`:
attach rank and label to one summary row. -/
def classifyRow (limiar : ℚ) (r : ResumoRow) : ReportRow :=
  { contratoId := r.contratoId
    cliente := r.cliente
    projeto := r.projeto
    colaboradores := r.colaboradores
    piorNota := r.piorNota
    notaMedia := r.notaMedia
    colabsRuins := r.colabsRuins
    severidade := (classifica limiar r.piorNota).1
    status := (classifica limiar r.piorNota).2 }

/-- Order on nullable scores with NULL sorted last (pandas `sort_values`
places `NaN` last on the secondary key). -/
def optLe (a b : Option ℚ) : Prop :=
  match a, b with
  | _, none => True
  | none, some _ => False
  | some x, some y => x ≤ y

instance : (a b : Option ℚ) → Decidable (optLe a b)
  | none, none => isTrue (by simp [optLe])
  | some _, none => isTrue (by simp [optLe])
  | none, some _ => isFalse (by simp [optLe])
  | some x, some y => decidable_of_iff (x ≤ y) (by simp [optLe])

theorem optLe_total (a b : Option ℚ) : optLe a b ∨ optLe b a := by
  cases a <;> cases b <;> simp [optLe]
  exact le_total _ _

theorem optLe_trans {a b c : Option ℚ} (hab : optLe a b) (hbc : optLe b c) :
    optLe a c := by
  cases a <;> cases b <;> cases c <;> simp [optLe] at *
  exact hab.trans hbc

/-- The `df.sort_values(["Severidade", "PiorNota"])` key order. -/
def reportLe (a b : ReportRow) : Prop :=
  a.severidade < b.severidade ∨ (a.severidade = b.severidade ∧ optLe a.piorNota b.piorNota)

instance (a b : ReportRow) : Decidable (reportLe a b) := by
  unfold reportLe; infer_instance

instance : IsTotal ReportRow reportLe where
  total a b := by
    unfold reportLe
    rcases Nat.lt_trichotomy a.severidade b.severidade with h | h | h
    · exact Or.inl (Or.inl h)
    · rcases optLe_total a.piorNota b.piorNota with ho | ho
      · exact Or.inl (Or.inr ⟨h, ho⟩)
      · exact Or.inr (Or.inr ⟨h.symm, ho⟩)
    · exact Or.inr (Or.inl h)

instance : IsTrans ReportRow reportLe where
  trans a b c hab hbc := by
    unfold reportLe at *
    rcases hab with hab | ⟨hab, hab2⟩
    · rcases hbc with hbc | ⟨hbc, _⟩
      · exact Or.inl (hab.trans hbc)
      · exact Or.inl (hbc ▸ hab)
    · rcases hbc with hbc | ⟨hbc, hbc2⟩
      · exact Or.inl (hab ▸ hbc)
      · exact Or.inr ⟨hab.trans hbc, optLe_trans hab2 hbc2⟩

/-- `buildReport`: classify every summary row, then
`df.sort_values(["Severidade", "PiorNota"])`. -/
def buildReport (rows : List ResumoRow) (limiar : ℚ) : List ReportRow :=
  List.insertionSort reportLe (rows.map (classifyRow limiar))

/-- `fetch_resumo(month, limiar)` from `src/app.py` (window already derived):
run `SQL_RESUMO`, classify, sort. -/
def fetch_resumo (s : Store) (ini fim : Date) (limiar : ℚ) : List ReportRow :=
  buildReport (fetchResumoRows s ini fim limiar) limiar

/-! ### Drill-down default selection -/

/-- `cid_default = df.iloc[0]["ContratoId"] if not df.empty else None`. -/
def cid_default (df : List ReportRow) : Option Nat :=
  match df with
  | [] => none
  | r :: _ => some r.contratoId

/-- Insertion-ordered deduplication: the key order of the Python dict
`cid_to_nome` built row by row from the report. -/
def pyDedupAux (seen : List Nat) : List Nat → List Nat
  | [] => []
  | a :: l => if a ∈ seen then pyDedupAux seen l else a :: pyDedupAux (a :: seen) l

/-- `list(cid_to_nome.keys())`: the selectbox options, in first-insertion order. -/
def selectOptions (df : List ReportRow) : List Nat :=
  pyDedupAux [] (df.map (fun r => r.contratoId))

/-- Python truthiness of `cid_default` (an optional integer):
`None` and `0` are falsy. -/
def truthy : Option Nat → Bool
  | none => false
  | some n => n != 0

/-- The drill-down's preselected contract: `st.selectbox(..., options,
index=0 if cid_default else None)` starts on the first option when the index
is `0`, and on no option when the index is `None`. -/
def preselected (df : List ReportRow) : Option Nat :=
  if truthy (cid_default df) then (selectOptions df).head? else none

/-! ### Claims -/

/-- C1 (counterexample): the month anchor's day-of-month is *not* ignored by
`interval_month`. For the valid date 2024-01-31, the returned `end` is
2024-02-28, not the last day (2024-01-31) of the anchor's month. -/
theorem interval_month_day_not_ignored :
    Date.valid ⟨2024, 1, 31⟩
      ∧ daysInMonth 2024 1 = 31
      ∧ interval_month ⟨2024, 1, 31⟩ = (⟨2024, 1, 1⟩, ⟨2024, 2, 28⟩)
      ∧ (⟨2024, 2, 28⟩ : Date) ≠ ⟨2024, 1, 31⟩ := by
  refine ⟨by decide, by decide, ?_, by decide⟩
  decide

/-- C1 (amended): for every month anchor that is the first day of its month
(every anchor the application produces via `pd.date_range(..., freq="MS")`),
`interval_month` returns the first and the last calendar day of that month,
correctly across month/year boundaries including leap years; the `start`
component additionally ignores the day-of-month. -/
theorem interval_month_correct_on_first_day_anchor (y m : Nat)
    (h1 : 1 ≤ m) (h2 : m ≤ 12) :
    interval_month ⟨y, m, 1⟩ = (⟨y, m, 1⟩, ⟨y, m, daysInMonth y m⟩) := by
  interval_cases m <;>
    cases hL : isLeap y <;>
      simp [interval_month, addOneMonthClamped, predDay, daysInMonth, hL]

/-- C1 witness: the amended theorem at the leap month 2024-02 gives the
window (2024-02-01, 2024-02-29), as in the spec's example. -/
theorem interval_month_correct_on_first_day_anchor_witness :
    1 ≤ 2 ∧ 2 ≤ 12
      ∧ interval_month ⟨2024, 2, 1⟩ = (⟨2024, 2, 1⟩, ⟨2024, 2, 29⟩) :=
  ⟨by decide, by decide,
    interval_month_correct_on_first_day_anchor 2024 2 (by decide) (by decide)⟩

/-- C2: `classifica` is the pure four-way rule evaluated in order — null
scores rank 3, scores below `limiar − 0.5` rank 0, other scores below
`limiar` rank 1, everything else rank 2 — and at threshold 3.0 the boundary
cases 2.49, 2.5, 2.99, 3.0 and null rank 0, 1, 1, 2 and 3. -/
theorem classifica_four_way_rule (limiar : ℚ) :
    classifica limiar none = (3, "⏸️ Sem avaliação")
      ∧ (∀ v : ℚ, v < limiar - 0.5 → classifica limiar (some v) = (0, "🔥 Crítico"))
      ∧ (∀ v : ℚ, ¬ v < limiar - 0.5 → v < limiar →
          classifica limiar (some v) = (1, "⚠️ Alerta"))
      ∧ (∀ v : ℚ, ¬ v < limiar → classifica limiar (some v) = (2, "OK"))
      ∧ ((classifica 3 (some 2.49)).1 = 0 ∧ (classifica 3 (some 2.5)).1 = 1
          ∧ (classifica 3 (some 2.99)).1 = 1 ∧ (classifica 3 (some 3)).1 = 2
          ∧ (classifica 3 none).1 = 3) := by
  refine ⟨rfl, ?_, ?_, ?_, ?_⟩
  · intro v h
    simp [classifica, h]
  · intro v h1 h2
    simp [classifica, h1, h2]
  · intro v h
    have h' : ¬ v < limiar - 0.5 := fun hc => h (hc.trans (by norm_num))
    simp [classifica, h', h]
  · norm_num [classifica]

/-- C2 witness: the four-way rule instantiated at threshold 3.0 on the
boundary scores. -/
theorem classifica_four_way_rule_witness :
    classifica 3 (some 2.49) = (0, "🔥 Crítico")
      ∧ classifica 3 (some 2.5) = (1, "⚠️ Alerta")
      ∧ classifica 3 (some 3) = (2, "OK")
      ∧ classifica 3 none = (3, "⏸️ Sem avaliação") :=
  ⟨(classifica_four_way_rule 3).2.1 2.49 (by norm_num),
   (classifica_four_way_rule 3).2.2.1 2.5 (by norm_num) (by norm_num),
   (classifica_four_way_rule 3).2.2.2.1 3 (by norm_num),
   (classifica_four_way_rule 3).1⟩

/-- C3: in every report built by `buildReport`, adjacent rows `(a, b)` satisfy
`a.severidade < b.severidade`, or equal ranks with `a.piorNota ≤ b.piorNota`
where a null score is greater than every number; and null scores occur only in
rank-3 rows. -/
theorem buildReport_sorted_by_severity_then_score (rows : List ResumoRow) (limiar : ℚ) :
    List.Chain'
      (fun a b => a.severidade < b.severidade
        ∨ (a.severidade = b.severidade ∧ optLe a.piorNota b.piorNota))
      (buildReport rows limiar)
    ∧ ∀ r ∈ buildReport rows limiar, r.piorNota = none → r.severidade = 3 := by
  constructor
  · exact (List.sorted_insertionSort reportLe (rows.map (classifyRow limiar))).chain'
  · intro r hr hnone
    unfold buildReport at hr
    rw [List.mem_insertionSort] at hr
    obtain ⟨row, _, rfl⟩ := List.mem_map.mp hr
    have hpn : row.piorNota = none := hnone
    simp [classifyRow, classifica, hpn]

/-- C3 witness: the ordering invariant evaluated on a one-row report whose
score is null; its single row is classified rank 3. -/
theorem buildReport_sorted_by_severity_then_score_witness :
    List.Chain'
      (fun a b => a.severidade < b.severidade
        ∨ (a.severidade = b.severidade ∧ optLe a.piorNota b.piorNota))
      (buildReport [⟨1, "a", "b", 1, none, none, 0⟩] 3)
    ∧ (⟨1, "a", "b", 1, none, none, 0, 3, "⏸️ Sem avaliação"⟩ : ReportRow).severidade = 3 :=
  ⟨(buildReport_sorted_by_severity_then_score [⟨1, "a", "b", 1, none, none, 0⟩] 3).1,
   (buildReport_sorted_by_severity_then_score [⟨1, "a", "b", 1, none, none, 0⟩] 3).2
     ⟨1, "a", "b", 1, none, none, 0, 3, "⏸️ Sem avaliação"⟩ (by decide) rfl⟩

/-- C9 (counterexample): when the report's first row has `ContratoId = 0`,
`cid_default` is `0` but the drill-down preselects nothing, because
`index=0 if cid_default else None` tests Python truthiness and `0` is falsy. -/
theorem preselected_zero_id_counterexample :
    cid_default [⟨0, "a", "b", 1, none, none, 0, 3, "s"⟩] = some 0
      ∧ preselected [⟨0, "a", "b", 1, none, none, 0, 3, "s"⟩] = none
      ∧ preselected [⟨0, "a", "b", 1, none, none, 0, 3, "s"⟩]
          ≠ cid_default [⟨0, "a", "b", 1, none, none, 0, 3, "s"⟩] := by
  refine ⟨rfl, rfl, by decide⟩

/-- C9 (amended): `cid_default` returns the first row's `ContratoId` (none on
an empty report), and the drill-down's preselected contract equals this
default exactly when the default is Python-truthy — i.e. present and nonzero;
a default of contract id 0 yields no preselection. -/
theorem cid_default_head_and_preselection (df : List ReportRow) :
    cid_default df = (df.map (fun r => r.contratoId)).head?
      ∧ preselected df = (if truthy (cid_default df) then cid_default df else none) := by
  cases df with
  | nil => exact ⟨rfl, rfl⟩
  | cons r l =>
    refine ⟨rfl, ?_⟩
    cases ht : truthy (cid_default (r :: l)) with
    | false => simp [preselected, ht]
    | true =>
      have ht' : truthy (some r.contratoId) = true := ht
      simp [preselected, selectOptions, pyDedupAux, cid_default, ht']

/-- C4: every row returned by `fetch_detalhes` comes from a joined tuple whose
evaluation period lies within `[ini, fim]` inclusive and whose evaluation's own
`ContratoId` equals the requested contract id (so an evaluation recorded
against a different contract is never returned, even when its collaborator has
an active assignment to the requested contract). -/
theorem fetch_detalhes_window_and_contract_scoped
    (s : Store) (cid : Nat) (ini fim : Date) (row : DetalheRow)
    (hrow : row ∈ fetch_detalhes s cid ini fim) :
    ∃ t ∈ detalhesSelected s cid ini fim,
      row = detalheProj t
        ∧ dateLe ini t.2.1.periodo ∧ dateLe t.2.1.periodo fim
        ∧ t.2.1.contratoId = cid ∧ t.1.contratoId = cid ∧ t.1.ativo = true
        ∧ dateLe ini row.periodo ∧ dateLe row.periodo fim := by
  unfold fetch_detalhes at hrow
  rw [List.mem_insertionSort] at hrow
  obtain ⟨t, ht, rfl⟩ := List.mem_map.mp hrow
  have hmem := List.mem_filter.mp ht
  have hwhere := hmem.2
  simp only [Bool.and_eq_true, beq_iff_eq] at hwhere
  obtain ⟨⟨hpecCid, hacCid⟩, hativo⟩ := hwhere
  have hjoin := hmem.1
  simp only [detalhesJoin, List.mem_flatMap, List.mem_filter, List.mem_map,
    Bool.and_eq_true, beq_iff_eq, decide_eq_true_eq] at hjoin
  obtain ⟨pec, hpec, ac, ⟨hac, ⟨hacid, hini⟩, hfim⟩, col, ⟨hcol, hcolid⟩, heq⟩ := hjoin
  subst heq
  exact ⟨(pec, ac, col), ht, rfl, hini, hfim, hacCid, hpecCid, hativo, hini, hfim⟩

/-- C4 witness: the scoping theorem applied to a concrete store holding one
in-window evaluation of collaborator 10 recorded against contract 1. -/
theorem fetch_detalhes_window_and_contract_scoped_witness :
    ∃ t ∈ detalhesSelected
        ⟨[⟨1, 1, "P", true⟩], [⟨1, "E"⟩], [⟨1, 10, true⟩], [⟨10, "Ana"⟩],
          [⟨10, 1, ⟨2024, 5, 10⟩, 4, 4, 4, "ok"⟩]⟩ 1 ⟨2024, 5, 1⟩ ⟨2024, 5, 31⟩,
      (⟨"Ana", ⟨2024, 5, 10⟩, 4, 4, 4, 4, "ok"⟩ : DetalheRow) = detalheProj t
        ∧ dateLe ⟨2024, 5, 1⟩ t.2.1.periodo ∧ dateLe t.2.1.periodo ⟨2024, 5, 31⟩
        ∧ t.2.1.contratoId = 1 ∧ t.1.contratoId = 1 ∧ t.1.ativo = true
        ∧ dateLe ⟨2024, 5, 1⟩ (⟨"Ana", ⟨2024, 5, 10⟩, 4, 4, 4, 4, "ok"⟩ : DetalheRow).periodo
        ∧ dateLe (⟨"Ana", ⟨2024, 5, 10⟩, 4, 4, 4, 4, "ok"⟩ : DetalheRow).periodo ⟨2024, 5, 31⟩ :=
  fetch_detalhes_window_and_contract_scoped
    ⟨[⟨1, 1, "P", true⟩], [⟨1, "E"⟩], [⟨1, 10, true⟩], [⟨10, "Ana"⟩],
      [⟨10, 1, ⟨2024, 5, 10⟩, 4, 4, 4, "ok"⟩]⟩ 1 ⟨2024, 5, 1⟩ ⟨2024, 5, 31⟩
    ⟨"Ana", ⟨2024, 5, 10⟩, 4, 4, 4, 4, "ok"⟩
    (by
      unfold fetch_detalhes
      rw [List.mem_insertionSort]
      rw [show detalhesSelected
          ⟨[⟨1, 1, "P", true⟩], [⟨1, "E"⟩], [⟨1, 10, true⟩], [⟨10, "Ana"⟩],
            [⟨10, 1, ⟨2024, 5, 10⟩, 4, 4, 4, "ok"⟩]⟩ 1 ⟨2024, 5, 1⟩ ⟨2024, 5, 31⟩
          = [(⟨1, 10, true⟩, ⟨10, 1, ⟨2024, 5, 10⟩, 4, 4, 4, "ok"⟩, ⟨10, "Ana"⟩)] from rfl]
      simp [detalheProj, notaAvaliacao]
      norm_num)

/-! ### Helper lemmas on aggregates -/

theorem foldl_min_le_init (acc : ℚ) (l : List ℚ) : l.foldl min acc ≤ acc := by
  induction l generalizing acc with
  | nil => exact le_refl _
  | cons x l ih => exact (ih (min acc x)).trans (min_le_left _ _)

theorem foldl_min_le_mem (acc : ℚ) (l : List ℚ) : ∀ x ∈ l, l.foldl min acc ≤ x := by
  induction l generalizing acc with
  | nil => exact fun x hx => absurd hx (List.not_mem_nil x)
  | cons y l ih =>
    intro x hx
    rcases List.mem_cons.mp hx with rfl | hx
    · exact (foldl_min_le_init (min acc x) l).trans (min_le_right _ _)
    · exact ih _ x hx

/-- The SQL `MIN` of a group is no larger than its `AVG`. -/
theorem listMin_le_media {l : List ℚ} {q : ℚ} (h : listMin l = some q) :
    q ≤ media l := by
  match l with
  | [] => exact absurd h (by simp [listMin])
  | x :: xs =>
    have hq : q = xs.foldl min x := by
      have := h.symm
      rwa [listMin, Option.some.injEq] at this
    have hle : ∀ y ∈ x :: xs, q ≤ y := by
      intro y hy
      rcases List.mem_cons.mp hy with rfl | hy
      · exact hq ▸ foldl_min_le_init y xs
      · exact hq ▸ foldl_min_le_mem x xs y hy
    have hsum : (x :: xs).length • q ≤ (x :: xs).sum :=
      List.card_nsmul_le_sum (x :: xs) q hle
    have hlen : (0 : ℚ) < ((x :: xs).length : ℚ) := by
      exact_mod_cast Nat.succ_pos xs.length
    rw [media, le_div_iff₀ hlen]
    calc q * ((x :: xs).length : ℚ) = (x :: xs).length • q := by
          rw [nsmul_eq_mul, mul_comm]
      _ ≤ (x :: xs).sum := hsum

/-- C8: on every row of the summary result set, whenever both `PiorNota`
(`MIN` of the per-collaborator averages) and `NotaMedia` (`AVG` of the same
values) are non-null, `PiorNota ≤ NotaMedia`. -/
theorem piorNota_le_notaMedia (s : Store) (ini fim : Date) (limiar : ℚ)
    (row : ResumoRow) (hrow : row ∈ fetchResumoRows s ini fim limiar)
    (p q : ℚ) (hp : row.piorNota = some p) (hq : row.notaMedia = some q) :
    p ≤ q := by
  obtain ⟨k, -, rfl⟩ := List.mem_map.mp hrow
  simp only [resumoRow] at hp hq
  by_cases hvs : ((groupRows s k).filterMap
      (fun t => (notas s ini fim).lookup t.2.2.colaboradorId)).isEmpty = true
  · rw [if_pos hvs] at hq
    exact absurd hq (by simp)
  · rw [if_neg hvs, Option.some.injEq] at hq
    exact hq ▸ listMin_le_media hp

/-- C8 witness: a store with two evaluated collaborators (averages 2 and 4)
on one contract; the row has `PiorNota = 2 ≤ 3 = NotaMedia`. -/
theorem piorNota_le_notaMedia_witness :
    (resumoRow
        ⟨[⟨1, 1, "P", true⟩], [⟨1, "E"⟩], [⟨1, 10, true⟩, ⟨1, 20, true⟩], [],
          [⟨10, 1, ⟨2024, 5, 10⟩, 2, 2, 2, ""⟩, ⟨20, 1, ⟨2024, 5, 11⟩, 4, 4, 4, ""⟩]⟩
        ⟨2024, 5, 1⟩ ⟨2024, 5, 31⟩ 3 ⟨1, "E", "P"⟩).piorNota = some 2
      ∧ (resumoRow
        ⟨[⟨1, 1, "P", true⟩], [⟨1, "E"⟩], [⟨1, 10, true⟩, ⟨1, 20, true⟩], [],
          [⟨10, 1, ⟨2024, 5, 10⟩, 2, 2, 2, ""⟩, ⟨20, 1, ⟨2024, 5, 11⟩, 4, 4, 4, ""⟩]⟩
        ⟨2024, 5, 1⟩ ⟨2024, 5, 31⟩ 3 ⟨1, "E", "P"⟩).notaMedia = some 3
      ∧ (2 : ℚ) ≤ 3 := by
  have hp : (resumoRow
      ⟨[⟨1, 1, "P", true⟩], [⟨1, "E"⟩], [⟨1, 10, true⟩, ⟨1, 20, true⟩], [],
        [⟨10, 1, ⟨2024, 5, 10⟩, 2, 2, 2, ""⟩, ⟨20, 1, ⟨2024, 5, 11⟩, 4, 4, 4, ""⟩]⟩
      ⟨2024, 5, 1⟩ ⟨2024, 5, 31⟩ 3 ⟨1, "E", "P"⟩).piorNota = some 2 := by
    simp [resumoRow, groupRows, resumoJoin, notas, avalsInWindow, media, notaAvaliacao,
      rkey, dateLe, listMin, List.lookup]
    norm_num
  have hq : (resumoRow
      ⟨[⟨1, 1, "P", true⟩], [⟨1, "E"⟩], [⟨1, 10, true⟩, ⟨1, 20, true⟩], [],
        [⟨10, 1, ⟨2024, 5, 10⟩, 2, 2, 2, ""⟩, ⟨20, 1, ⟨2024, 5, 11⟩, 4, 4, 4, ""⟩]⟩
      ⟨2024, 5, 1⟩ ⟨2024, 5, 31⟩ 3 ⟨1, "E", "P"⟩).notaMedia = some 3 := by
    simp [resumoRow, groupRows, resumoJoin, notas, avalsInWindow, media, notaAvaliacao,
      rkey, dateLe, listMin, List.lookup]
    norm_num
  refine ⟨hp, hq, ?_⟩
  exact piorNota_le_notaMedia
    ⟨[⟨1, 1, "P", true⟩], [⟨1, "E"⟩], [⟨1, 10, true⟩, ⟨1, 20, true⟩], [],
      [⟨10, 1, ⟨2024, 5, 10⟩, 2, 2, 2, ""⟩, ⟨20, 1, ⟨2024, 5, 11⟩, 4, 4, 4, ""⟩]⟩
    ⟨2024, 5, 1⟩ ⟨2024, 5, 31⟩ 3 _
    (List.mem_map.mpr ⟨⟨1, "E", "P"⟩, by
      simp [resumoKeys, resumoJoin, rkey], rfl⟩)
    2 3 hp hq

/-- Looking up a key absent from an association list built by pairing each
element with a computed value yields `none`. -/
theorem lookup_map_pair_eq_none {i : Nat} {l : List Nat} {f : Nat → ℚ} (h : i ∉ l) :
    ((l.map (fun j => (j, f j))).lookup i) = none := by
  induction l with
  | nil => rfl
  | cons j l ih =>
    have hne : i ≠ j := fun e => h (e ▸ List.mem_cons_self j l)
    have hb : (i == j) = false := beq_eq_false_iff_ne.mpr hne
    simp [List.lookup, hb, ih (fun hm => h (List.mem_cons_of_mem j hm))]

/-- A collaborator with no evaluation in the window has no entry in the
`notas` CTE. -/
theorem lookup_notas_eq_none {s : Store} {ini fim : Date} {i : Nat}
    (h : ∀ a ∈ avalsInWindow s ini fim, a.colaboradorId ≠ i) :
    (notas s ini fim).lookup i = none := by
  simp only [notas]
  apply lookup_map_pair_eq_none
  intro hmem
  rw [List.mem_dedup] at hmem
  obtain ⟨a, ha, haid⟩ := List.mem_map.mp hmem
  exact h a ha haid

/-- C5: an active contract with an active collaborator assignment, none of
whose assigned collaborators has any evaluation in the window, still yields a
summary row, with `PiorNota = NULL`, `NotaMedia = NULL`, `ColabsRuins = 0`
and `Colaboradores ≥ 1`. -/
theorem resumo_includes_evalless_contract
    (s : Store) (ini fim : Date) (limiar : ℚ) (c : Contrato) (e : Empresa) (p : Pec)
    (hc : c ∈ s.contratos) (hca : c.isAtivo = true)
    (he : e ∈ s.empresas) (hei : e.id = c.empresaId)
    (hp : p ∈ s.pecs) (hpc : p.contratoId = c.id) (hpa : p.ativo = true)
    (hnoeval : ∀ p2 ∈ s.pecs, p2.contratoId = c.id → p2.ativo = true →
      ∀ a ∈ avalsInWindow s ini fim, a.colaboradorId ≠ p2.colaboradorId) :
    resumoRow s ini fim limiar ⟨c.id, e.nome, c.objeto⟩ ∈ fetchResumoRows s ini fim limiar
      ∧ (resumoRow s ini fim limiar ⟨c.id, e.nome, c.objeto⟩).piorNota = none
      ∧ (resumoRow s ini fim limiar ⟨c.id, e.nome, c.objeto⟩).notaMedia = none
      ∧ (resumoRow s ini fim limiar ⟨c.id, e.nome, c.objeto⟩).colabsRuins = 0
      ∧ 1 ≤ (resumoRow s ini fim limiar ⟨c.id, e.nome, c.objeto⟩).colaboradores := by
  have htup : (c, e, p) ∈ resumoJoin s := by
    simp only [resumoJoin, List.mem_flatMap, List.mem_filter, List.mem_map,
      Bool.and_eq_true, beq_iff_eq]
    exact ⟨c, ⟨hc, hca⟩, e, ⟨he, hei⟩, p, ⟨hp, hpc, hpa⟩, rfl⟩
  have hgrp : (c, e, p) ∈ groupRows s ⟨c.id, e.nome, c.objeto⟩ := by
    rw [groupRows, List.mem_filter]
    exact ⟨htup, by simp [rkey]⟩
  have hkmem : (⟨c.id, e.nome, c.objeto⟩ : ResumoKey) ∈ resumoKeys s := by
    rw [resumoKeys, List.mem_dedup]
    exact List.mem_map.mpr ⟨(c, e, p), htup, rfl⟩
  have hvs : (groupRows s ⟨c.id, e.nome, c.objeto⟩).filterMap
      (fun t => (notas s ini fim).lookup t.2.2.colaboradorId) = [] := by
    apply List.filterMap_eq_nil_iff.mpr
    intro t ht
    rw [groupRows, List.mem_filter] at ht
    have hkey : rkey t = ⟨c.id, e.nome, c.objeto⟩ := by
      have := ht.2
      rwa [beq_iff_eq] at this
    have hjoin := ht.1
    simp only [resumoJoin, List.mem_flatMap, List.mem_filter, List.mem_map,
      Bool.and_eq_true, beq_iff_eq] at hjoin
    obtain ⟨c2, ⟨hc2, hc2a⟩, e2, ⟨he2, he2i⟩, p2, ⟨hp2, hp2c, hp2a⟩, heq⟩ := hjoin
    subst heq
    have hcid : c2.id = c.id := congrArg ResumoKey.contratoId hkey
    apply lookup_notas_eq_none
    exact hnoeval p2 hp2 (hp2c.trans hcid) hp2a
  refine ⟨List.mem_map.mpr ⟨⟨c.id, e.nome, c.objeto⟩, hkmem, rfl⟩, ?_, ?_, ?_, ?_⟩
  · simp only [resumoRow, hvs]
    rfl
  · simp only [resumoRow, hvs]
    rfl
  · simp only [resumoRow, hvs]
    rfl
  · simp only [resumoRow]
    have hmem : p.colaboradorId ∈
        ((groupRows s ⟨c.id, e.nome, c.objeto⟩).map (fun t => t.2.2.colaboradorId)).dedup :=
      List.mem_dedup.mpr (List.mem_map.mpr ⟨(c, e, p), hgrp, rfl⟩)
    exact List.length_pos_of_mem hmem

/-- C5 witness: a store with an active contract, one active assignment and a
single evaluation outside the window; the summary row exists with null
aggregates and one counted collaborator. -/
theorem resumo_includes_evalless_contract_witness :
    resumoRow
        ⟨[⟨1, 1, "P", true⟩], [⟨1, "E"⟩], [⟨1, 10, true⟩], [],
          [⟨10, 1, ⟨2024, 4, 10⟩, 2, 2, 2, ""⟩]⟩
        ⟨2024, 5, 1⟩ ⟨2024, 5, 31⟩ 3 ⟨1, "E", "P"⟩
      ∈ fetchResumoRows
        ⟨[⟨1, 1, "P", true⟩], [⟨1, "E"⟩], [⟨1, 10, true⟩], [],
          [⟨10, 1, ⟨2024, 4, 10⟩, 2, 2, 2, ""⟩]⟩ ⟨2024, 5, 1⟩ ⟨2024, 5, 31⟩ 3
      ∧ (resumoRow
        ⟨[⟨1, 1, "P", true⟩], [⟨1, "E"⟩], [⟨1, 10, true⟩], [],
          [⟨10, 1, ⟨2024, 4, 10⟩, 2, 2, 2, ""⟩]⟩
        ⟨2024, 5, 1⟩ ⟨2024, 5, 31⟩ 3 ⟨1, "E", "P"⟩).piorNota = none
      ∧ (resumoRow
        ⟨[⟨1, 1, "P", true⟩], [⟨1, "E"⟩], [⟨1, 10, true⟩], [],
          [⟨10, 1, ⟨2024, 4, 10⟩, 2, 2, 2, ""⟩]⟩
        ⟨2024, 5, 1⟩ ⟨2024, 5, 31⟩ 3 ⟨1, "E", "P"⟩).notaMedia = none
      ∧ (resumoRow
        ⟨[⟨1, 1, "P", true⟩], [⟨1, "E"⟩], [⟨1, 10, true⟩], [],
          [⟨10, 1, ⟨2024, 4, 10⟩, 2, 2, 2, ""⟩]⟩
        ⟨2024, 5, 1⟩ ⟨2024, 5, 31⟩ 3 ⟨1, "E", "P"⟩).colabsRuins = 0
      ∧ 1 ≤ (resumoRow
        ⟨[⟨1, 1, "P", true⟩], [⟨1, "E"⟩], [⟨1, 10, true⟩], [],
          [⟨10, 1, ⟨2024, 4, 10⟩, 2, 2, 2, ""⟩]⟩
        ⟨2024, 5, 1⟩ ⟨2024, 5, 31⟩ 3 ⟨1, "E", "P"⟩).colaboradores :=
  resumo_includes_evalless_contract
    ⟨[⟨1, 1, "P", true⟩], [⟨1, "E"⟩], [⟨1, 10, true⟩], [],
      [⟨10, 1, ⟨2024, 4, 10⟩, 2, 2, 2, ""⟩]⟩
    ⟨2024, 5, 1⟩ ⟨2024, 5, 31⟩ 3 ⟨1, 1, "P", true⟩ ⟨1, "E"⟩ ⟨1, 10, true⟩
    (by decide) rfl (by decide) rfl (by decide) rfl rfl
    (by decide)

/-- Counting the below-threshold values among looked-up averages row by row
equals counting the keys whose lookup is non-null and below the threshold. -/
theorem length_filter_filterMap_lookup (L : List Nat) (ns : List (Nat × ℚ)) (limiar : ℚ) :
    ((L.filterMap (fun i => ns.lookup i)).filter (fun v => decide (v < limiar))).length
      = (L.filter (fun i =>
          match ns.lookup i with
          | some v => decide (v < limiar)
          | none => false)).length := by
  induction L with
  | nil => rfl
  | cons i L ih =>
    cases h : ns.lookup i with
    | none => simp [List.filterMap_cons, h, List.filter_cons, ih]
    | some v =>
      cases hv : decide (v < limiar) with
      | false => simp [List.filterMap_cons, h, List.filter_cons, hv, ih]
      | true => simp [List.filterMap_cons, h, List.filter_cons, hv, ih]

/-- C7: when the group's active assignments carry no duplicate collaborator,
`ColabsRuins` equals the number of distinct collaborators assigned to the
contract whose per-window average (`notas` lookup) is non-null and strictly
below the threshold — one flag per collaborator, not one per evaluation. -/
theorem colabsRuins_counts_bad_collaborators (s : Store) (ini fim : Date) (limiar : ℚ)
    (k : ResumoKey) (_hk : k ∈ resumoKeys s)
    (hnd : ((groupRows s k).map (fun t => t.2.2.colaboradorId)).Nodup) :
    (resumoRow s ini fim limiar k).colabsRuins
      = ((((groupRows s k).map (fun t => t.2.2.colaboradorId)).dedup).filter
          (fun i =>
            match (notas s ini fim).lookup i with
            | some v => decide (v < limiar)
            | none => false)).length := by
  simp only [resumoRow]
  rw [hnd.dedup]
  have hsplit : (groupRows s k).filterMap
        (fun t => (notas s ini fim).lookup t.2.2.colaboradorId)
      = ((groupRows s k).map (fun t => t.2.2.colaboradorId)).filterMap
          (fun i => (notas s ini fim).lookup i) := by
    rw [List.filterMap_map]
    rfl
  rw [hsplit, length_filter_filterMap_lookup]

/-- C7 witness: two distinct collaborators with averages 2 and 4 under
threshold 3; `ColabsRuins` is the collaborator count 1. -/
theorem colabsRuins_counts_bad_collaborators_witness :
    ((resumoRow
        ⟨[⟨1, 1, "P", true⟩], [⟨1, "E"⟩], [⟨1, 10, true⟩, ⟨1, 20, true⟩], [],
          [⟨10, 1, ⟨2024, 5, 10⟩, 2, 2, 2, ""⟩, ⟨20, 1, ⟨2024, 5, 11⟩, 4, 4, 4, ""⟩]⟩
        ⟨2024, 5, 1⟩ ⟨2024, 5, 31⟩ 3 ⟨1, "E", "P"⟩).colabsRuins
      = ((((groupRows
          ⟨[⟨1, 1, "P", true⟩], [⟨1, "E"⟩], [⟨1, 10, true⟩, ⟨1, 20, true⟩], [],
            [⟨10, 1, ⟨2024, 5, 10⟩, 2, 2, 2, ""⟩, ⟨20, 1, ⟨2024, 5, 11⟩, 4, 4, 4, ""⟩]⟩
          ⟨1, "E", "P"⟩).map (fun t => t.2.2.colaboradorId)).dedup).filter
          (fun i =>
            match (notas
              ⟨[⟨1, 1, "P", true⟩], [⟨1, "E"⟩], [⟨1, 10, true⟩, ⟨1, 20, true⟩], [],
                [⟨10, 1, ⟨2024, 5, 10⟩, 2, 2, 2, ""⟩, ⟨20, 1, ⟨2024, 5, 11⟩, 4, 4, 4, ""⟩]⟩
              ⟨2024, 5, 1⟩ ⟨2024, 5, 31⟩).lookup i with
            | some v => decide (v < 3)
            | none => false)).length)
      ∧ (resumoRow
        ⟨[⟨1, 1, "P", true⟩], [⟨1, "E"⟩], [⟨1, 10, true⟩, ⟨1, 20, true⟩], [],
          [⟨10, 1, ⟨2024, 5, 10⟩, 2, 2, 2, ""⟩, ⟨20, 1, ⟨2024, 5, 11⟩, 4, 4, 4, ""⟩]⟩
        ⟨2024, 5, 1⟩ ⟨2024, 5, 31⟩ 3 ⟨1, "E", "P"⟩).colabsRuins = 1 :=
  ⟨colabsRuins_counts_bad_collaborators
      ⟨[⟨1, 1, "P", true⟩], [⟨1, "E"⟩], [⟨1, 10, true⟩, ⟨1, 20, true⟩], [],
        [⟨10, 1, ⟨2024, 5, 10⟩, 2, 2, 2, ""⟩, ⟨20, 1, ⟨2024, 5, 11⟩, 4, 4, 4, ""⟩]⟩
      ⟨2024, 5, 1⟩ ⟨2024, 5, 31⟩ 3 ⟨1, "E", "P"⟩ (by decide) (by decide),
   by
    simp [resumoRow, groupRows, resumoJoin, notas, avalsInWindow, media, notaAvaliacao,
      rkey, dateLe, List.lookup]
    norm_num⟩

/-- C6: the `notas` CTE is computed per collaborator over all in-window
evaluations regardless of the contract each evaluation was recorded against —
reassigning every evaluation's `ContratoId` arbitrarily leaves `notas`
unchanged — and consequently there are store states (here: collaborator 10
assigned to contract 1 whose only evaluation is recorded against contract 2)
where a contract's `PiorNota` and `ColabsRuins` are determined entirely by
another contract's evaluations, while `fetch_detalhes`, which filters on the
evaluation's own `ContratoId`, returns nothing for it. -/
theorem notas_ignores_evaluation_contract :
    (∀ (s : Store) (f : Avaliacao → Nat) (ini fim : Date),
        notas ⟨s.contratos, s.empresas, s.pecs, s.colaboradores,
            s.avaliacoes.map (fun a => ⟨a.colaboradorId, f a, a.periodo, a.tecnico,
              a.comunicacao, a.comprometimento, a.descricao⟩)⟩ ini fim
          = notas s ini fim)
      ∧ (resumoRow
          ⟨[⟨1, 1, "P", true⟩], [⟨1, "E"⟩], [⟨1, 10, true⟩], [⟨10, "Ana"⟩],
            [⟨10, 2, ⟨2024, 5, 10⟩, 2, 2, 2, ""⟩]⟩
          ⟨2024, 5, 1⟩ ⟨2024, 5, 31⟩ 3 ⟨1, "E", "P"⟩).piorNota = some 2
      ∧ (resumoRow
          ⟨[⟨1, 1, "P", true⟩], [⟨1, "E"⟩], [⟨1, 10, true⟩], [⟨10, "Ana"⟩],
            [⟨10, 2, ⟨2024, 5, 10⟩, 2, 2, 2, ""⟩]⟩
          ⟨2024, 5, 1⟩ ⟨2024, 5, 31⟩ 3 ⟨1, "E", "P"⟩).colabsRuins = 1
      ∧ fetch_detalhes
          ⟨[⟨1, 1, "P", true⟩], [⟨1, "E"⟩], [⟨1, 10, true⟩], [⟨10, "Ana"⟩],
            [⟨10, 2, ⟨2024, 5, 10⟩, 2, 2, 2, ""⟩]⟩
          1 ⟨2024, 5, 1⟩ ⟨2024, 5, 31⟩ = [] := by
  refine ⟨?_, ?_, ?_, rfl⟩
  · intro s f ini fim
    simp only [notas, avalsInWindow, List.filter_map, List.map_map]
    rfl
  · simp [resumoRow, groupRows, resumoJoin, notas, avalsInWindow, media, notaAvaliacao,
      rkey, dateLe, listMin, List.lookup]
    norm_num
  · simp [resumoRow, groupRows, resumoJoin, notas, avalsInWindow, media, notaAvaliacao,
      rkey, dateLe, List.lookup]
    norm_num

/-! ### Duplicate active assignments (C10) -/

theorem filterMap_replicate_some {α β : Type} (f : α → Option β) (a : α) (b : β)
    (h : f a = some b) (n : Nat) :
    (List.replicate n a).filterMap f = List.replicate n b := by
  induction n with
  | zero => rfl
  | succ n ih => simp [List.replicate_succ, List.filterMap_cons, h, ih]

theorem filter_replicate_true {α : Type} (p : α → Bool) (a : α)
    (h : p a = true) (n : Nat) :
    (List.replicate n a).filter p = List.replicate n a := by
  induction n with
  | zero => rfl
  | succ n ih => simp [List.replicate_succ, List.filter_cons, h, ih]

theorem dedup_replicate_append {a b : Nat} (hab : a ≠ b) :
    ∀ n, 1 ≤ n → (List.replicate n a ++ [b]).dedup = [a, b] := by
  intro n
  induction n with
  | zero => omega
  | succ n ih =>
    intro _
    rcases Nat.eq_zero_or_pos n with rfl | hn
    · simp [List.dedup_cons_of_not_mem, hab]
    · rw [List.replicate_succ, List.cons_append, List.dedup_cons_of_mem
        (List.mem_append_left _ (List.mem_replicate.mpr ⟨Nat.pos_iff_ne_zero.mp hn, rfl⟩)),
        ih hn]

theorem foldl_min_replicate_append (a b : ℚ) :
    ∀ n, (List.replicate n a ++ [b]).foldl min a = min a b := by
  intro n
  induction n with
  | zero => rfl
  | succ n ih =>
    rw [List.replicate_succ, List.cons_append, List.foldl_cons, min_self]
    exact ih

/-- A store family for C10: contract 1 carries `k` identical active
assignment rows for collaborator 10 (average 2) and one for collaborator 20
(average 4). -/
def dupStore (k : Nat) : Store :=
  { contratos := [⟨1, 1, "P", true⟩]
    empresas := [⟨1, "E"⟩]
    pecs := List.replicate k ⟨1, 10, true⟩ ++ [⟨1, 20, true⟩]
    colaboradores := []
    avaliacoes := [⟨10, 1, ⟨2024, 5, 10⟩, 2, 2, 2, ""⟩, ⟨20, 1, ⟨2024, 5, 10⟩, 4, 4, 4, ""⟩] }

/-- C10: with `k > 1` duplicate active assignment rows for the same
(contract, collaborator) pair, the summary row counts the collaborator once in
`Colaboradores` (distinct count) and once in `PiorNota` (a minimum), but
weights its average `k` times in `NotaMedia` — `(2·k + 4)/(k + 1)` instead of
the unweighted `(2 + 4)/2` — and adds `k` rather than `1` to `ColabsRuins`
for a below-threshold average. -/
theorem duplicate_assignment_weighting (k : Nat) (hk : 2 ≤ k) :
    resumoRow (dupStore k) ⟨2024, 5, 1⟩ ⟨2024, 5, 31⟩ 3 ⟨1, "E", "P"⟩
      = ⟨1, "E", "P", 2, some 2, some ((2 * (k : ℚ) + 4) / ((k : ℚ) + 1)), k⟩ := by
  obtain ⟨n, rfl⟩ : ∃ n, k = n + 1 := ⟨k - 1, by omega⟩
  have hns : notas (dupStore (n + 1)) ⟨2024, 5, 1⟩ ⟨2024, 5, 31⟩ = [(10, 2), (20, 4)] := by
    simp [notas, avalsInWindow, media, notaAvaliacao, dateLe, dupStore]
    norm_num
  have hjoin : resumoJoin (dupStore (n + 1))
      = List.replicate (n + 1) (⟨1, 1, "P", true⟩, ⟨1, "E"⟩, (⟨1, 10, true⟩ : Pec))
          ++ [(⟨1, 1, "P", true⟩, ⟨1, "E"⟩, ⟨1, 20, true⟩)] := by
    unfold resumoJoin dupStore
    simp [filter_replicate_true, List.filter_append, List.map_replicate]
  have hgrp : groupRows (dupStore (n + 1)) ⟨1, "E", "P"⟩
      = List.replicate (n + 1) (⟨1, 1, "P", true⟩, ⟨1, "E"⟩, (⟨1, 10, true⟩ : Pec))
          ++ [(⟨1, 1, "P", true⟩, ⟨1, "E"⟩, ⟨1, 20, true⟩)] := by
    unfold groupRows
    rw [hjoin, List.filter_append, filter_replicate_true _ _ rfl]
    simp [List.filter_cons, rkey]
  have hvs : (groupRows (dupStore (n + 1)) ⟨1, "E", "P"⟩).filterMap
        (fun t => (notas (dupStore (n + 1)) ⟨2024, 5, 1⟩ ⟨2024, 5, 31⟩).lookup
          t.2.2.colaboradorId)
      = List.replicate (n + 1) (2 : ℚ) ++ [4] := by
    rw [hgrp, hns, List.filterMap_append,
      filterMap_replicate_some
        (fun t : Contrato × Empresa × Pec =>
          List.lookup t.2.2.colaboradorId [((10 : Nat), (2 : ℚ)), (20, 4)])
        ((⟨1, 1, "P", true⟩ : Contrato), (⟨1, "E"⟩ : Empresa), (⟨1, 10, true⟩ : Pec))
        (2 : ℚ) rfl]
    simp [List.filterMap_cons, List.lookup]
  have hcol : ((groupRows (dupStore (n + 1)) ⟨1, "E", "P"⟩).map
        (fun t => t.2.2.colaboradorId)).dedup = [10, 20] := by
    rw [hgrp, List.map_append, List.map_replicate]
    simp only [List.map_cons, List.map_nil]
    exact dedup_replicate_append (by decide) (n + 1) (by omega)
  simp only [resumoRow, hvs, hcol]
  simp only [ResumoRow.mk.injEq]
  refine ⟨by trivial, by trivial, by trivial, by trivial, ?_, ?_, ?_⟩
  · rw [List.replicate_succ, List.cons_append]
    show some ((List.replicate n (2:ℚ) ++ [(4:ℚ)]).foldl min 2) = some 2
    rw [foldl_min_replicate_append 2 4 n]
    norm_num
  · rw [List.replicate_succ, List.cons_append]
    have hne : ((2:ℚ) :: (List.replicate n (2:ℚ) ++ [4])).isEmpty = false := rfl
    rw [hne]
    simp only [Bool.false_eq_true, if_false, Option.some.injEq, media]
    rw [show ((2:ℚ) :: (List.replicate n (2:ℚ) ++ [4])) = List.replicate (n+1) (2:ℚ) ++ [4] by
      rw [List.replicate_succ, List.cons_append]]
    rw [List.sum_append, List.sum_replicate, List.length_append, List.length_replicate]
    simp only [List.sum_cons, List.sum_nil, List.length_cons, List.length_nil, nsmul_eq_mul]
    push_cast
    ring_nf
  · rw [List.filter_append, filter_replicate_true _ _ (by norm_num)]
    rw [show List.filter (fun v => decide (v < 3)) [(4:ℚ)] = [] by norm_num]
    simp

/-- C10 witness: at `k = 2`, the row is
`(Colaboradores, PiorNota, NotaMedia, ColabsRuins) = (2, 2, 8/3, 2)`. -/
theorem duplicate_assignment_weighting_witness :
    2 ≤ 2
      ∧ resumoRow (dupStore 2) ⟨2024, 5, 1⟩ ⟨2024, 5, 31⟩ 3 ⟨1, "E", "P"⟩
          = ⟨1, "E", "P", 2, some 2, some (8 / 3), 2⟩ := by
  refine ⟨by norm_num, ?_⟩
  have h := duplicate_assignment_weighting 2 (by norm_num)
  rw [h]
  simp only [ResumoRow.mk.injEq]
  norm_num
